import Mathlib

/-!
Verification of the `Control` state machine from `sandman_main/controls.py`.

The Python class `Control` drives one bed actuator through four states
(idle, moving up, moving down, cool down).  We embed it shallowly:

* the `State` enum becomes an inductive type;
* the mutable instance becomes an immutable `Control` structure threaded
  through the operations;
* the notification sink (a mutable sequence the code appends to) becomes a
  `List String` passed in and returned;
* the `Timer` collaborator (`get_current_time`, `get_time_since_ms`) is not
  part of the source tree.  Modelled from the spec: a monotonic time source
  with opaque timestamps and integer-millisecond elapsed times.  We model a
  timestamp as an integer count of milliseconds, pass the current timer
  reading `now : Int` into `process`, and compute
  `get_time_since_ms start = now - start`;
* `state_start_time` is an `Option Int`: the Python constructor never sets
  the attribute, so reading it before the first transition would raise.
  Operations that read it return `Option` results; `none` models that
  failure.
-/

namespace Sandman

/-- The `Control.State` enum of `controls.py`: the states a control can be
in. -/
inductive State where
  | idle
  | moveUp
  | moveDown
  | coolDown
deriving DecidableEq, Repr

/-- The fields of a `Control` instance.  `name` is used only in message
text; the two durations are the immutable configuration from the
constructor. -/
structure Control where
  name : String
  state : State
  desired_state : State
  state_start_time : Option Int
  moving_duration_ms : Int
  cool_down_duration_ms : Int
deriving DecidableEq, Repr

/-- Python `Control.__init__`: both state fields start at idle;
`state_start_time` is left unset. -/
def Control.init (name : String) (moving_duration_ms cool_down_duration_ms : Int) :
    Control :=
  { name := name
    state := State.idle
    desired_state := State.idle
    state_start_time := none
    moving_duration_ms := moving_duration_ms
    cool_down_duration_ms := cool_down_duration_ms }

/-- Python `Control.set_desired_state`: requests for cool down are ignored; any
other value is recorded. -/
def Control.set_desired_state (c : Control) (s : State) : Control :=
  if s = State.coolDown then c
  else { c with desired_state := s }

/-- Python `Control.__set_state`: appends the notification for the state being
entered (nothing for idle), then records the new state and stamps
`state_start_time` with the current timer reading. -/
def Control.set_state (c : Control) (ns : List String) (s : State) (now : Int) :
    Control × List String :=
  let ns :=
    match s with
    | State.moveUp => ns ++ ["Raising the " ++ c.name ++ "."]
    | State.moveDown => ns ++ ["Lowering the " ++ c.name ++ "."]
    | State.coolDown => ns ++ [c.name ++ " stopped."]
    | State.idle => ns
  ({ c with state := s, state_start_time := some now }, ns)

/-- Python `Control.__process_idle_state`: leave idle only toward a moving state;
any other requested state is defensively reset to idle. -/
def Control.process_idle_state (c : Control) (ns : List String) (now : Int) :
    Control × List String :=
  if c.desired_state = State.idle then (c, ns)
  else if c.desired_state ≠ State.moveUp ∧ c.desired_state ≠ State.moveDown then
    ({ c with desired_state := State.idle }, ns)
  else
    c.set_state ns c.desired_state now

/-- The tail of `Control.__process_moving_states` after the desired-state
match: read the elapsed time and stop into cool down once the moving
duration is up.  Reading an unset `state_start_time` fails. -/
def Control.moving_timeout (c : Control) (ns : List String) (now : Int) :
    Option (Control × List String) :=
  match c.state_start_time with
  | none => none
  | some start =>
    if now - start < c.moving_duration_ms then some (c, ns)
    else some (({ c with desired_state := State.idle }).set_state ns State.coolDown now)

/-- Python `Control.__process_moving_states`: a differing desired state is honored
immediately (the other moving state directly, idle via cool down); a
desired cool down matches no case of the Python `match` and falls through
to the timeout logic, as does an unchanged desired state. -/
def Control.process_moving_states (c : Control) (ns : List String) (now : Int) :
    Option (Control × List String) :=
  if c.desired_state ≠ c.state then
    match c.desired_state with
    | State.moveUp => some (c.set_state ns State.moveUp now)
    | State.moveDown => some (c.set_state ns State.moveDown now)
    | State.idle => some (c.set_state ns State.coolDown now)
    | State.coolDown => c.moving_timeout ns now
  else
    c.moving_timeout ns now

/-- Python `Control.__process_cool_down_state`: ignore the desired state entirely;
return to idle (with no notification) once the cool-down duration is up. -/
def Control.process_cool_down_state (c : Control) (ns : List String) (now : Int) :
    Option (Control × List String) :=
  match c.state_start_time with
  | none => none
  | some start =>
    if now - start < c.cool_down_duration_ms then some (c, ns)
    else some (({ c with desired_state := State.idle }).set_state ns State.idle now)

/-- Python `Control.process`: dispatch on the current state.  The Python `match`
has an unreachable extra branch asserting the state is one of the four
enum values; the inductive `State` is closed, so that branch has no
counterpart here. -/
def Control.process (c : Control) (ns : List String) (now : Int) :
    Option (Control × List String) :=
  match c.state with
  | State.idle => some (c.process_idle_state ns now)
  | State.moveUp => c.process_moving_states ns now
  | State.moveDown => c.process_moving_states ns now
  | State.coolDown => c.process_cool_down_state ns now

/-- One step of the public API: either the caller records a desired state,
or a `process` tick succeeds at some timer reading. -/
inductive Step : Control → Control → Prop where
  | set_desired (c : Control) (s : State) : Step c (c.set_desired_state s)
  | process (c : Control) (ns : List String) (now : Int) (c2 : Control)
      (ns2 : List String) (h : c.process ns now = some (c2, ns2)) : Step c c2

/-- The controls reachable from construction by any sequence of public API
calls. -/
inductive Reachable : Control → Prop where
  | init (name : String) (mv cd : Int) : Reachable (Control.init name mv cd)
  | step {c c2 : Control} (hr : Reachable c) (hs : Step c c2) : Reachable c2

/-- A concrete control in mid-motion: the `legs` control one tick after a
MoveUp request (reached through the public API, see
`movingLegs_reachable`). -/
def movingLegs : Control :=
  { name := "legs", state := State.moveUp, desired_state := State.moveUp,
    state_start_time := some 0, moving_duration_ms := 5000,
    cool_down_duration_ms := 2000 }

/-- Helper: `set_desired_state` touches only the `desired_state` field. -/
theorem set_desired_state_fields (c : Control) (s : State) :
    (c.set_desired_state s).state = c.state ∧
    (c.set_desired_state s).state_start_time = c.state_start_time ∧
    (c.set_desired_state s).cool_down_duration_ms = c.cool_down_duration_ms ∧
    (c.set_desired_state s).moving_duration_ms = c.moving_duration_ms ∧
    (c.set_desired_state s).name = c.name := by
  unfold Control.set_desired_state
  split <;> simp

/-- A whole sequence of `set_desired_state` calls touches only the
`desired_state` field. -/
theorem foldl_set_desired_state_fields (requests : List State) (c : Control) :
    (requests.foldl Control.set_desired_state c).state = c.state ∧
    (requests.foldl Control.set_desired_state c).state_start_time =
      c.state_start_time ∧
    (requests.foldl Control.set_desired_state c).cool_down_duration_ms =
      c.cool_down_duration_ms := by
  induction requests generalizing c with
  | nil => simp
  | cons s rest ih =>
    have h := set_desired_state_fields c s
    have h2 := ih (c.set_desired_state s)
    simp only [List.foldl_cons]
    exact ⟨h2.1.trans h.1, h2.2.1.trans h.2.1, h2.2.2.trans h.2.2.1⟩

/-- C6: Every control, immediately after construction with any name,
moving duration, and cool-down duration, has state Idle and desired state
Idle. -/
theorem init_state_and_desired_idle (name : String) (mv cd : Int) :
    (Control.init name mv cd).state = State.idle ∧
    (Control.init name mv cd).desired_state = State.idle :=
  ⟨rfl, rfl⟩

/-- C4: `set_desired_state(CoolDown)` is a complete no-op in every state;
any other value only updates `desired_state` (so it never changes `state`
or any other field, i.e. it triggers no transition by itself). -/
theorem set_desired_state_spec (c : Control) (s : State) :
    c.set_desired_state State.coolDown = c ∧
    (s ≠ State.coolDown →
      c.set_desired_state s = { c with desired_state := s }) := by
  constructor
  · simp [Control.set_desired_state]
  · intro h
    simp [Control.set_desired_state, h]

/-- Witness for C4 at a concrete control and the request MoveUp. -/
theorem set_desired_state_spec_witness :
    (Control.init "back" 5000 2000).set_desired_state State.coolDown =
      Control.init "back" 5000 2000 ∧
    (Control.init "back" 5000 2000).set_desired_state State.moveUp =
      { Control.init "back" 5000 2000 with desired_state := State.moveUp } :=
  ⟨(set_desired_state_spec (Control.init "back" 5000 2000) State.moveUp).1,
    (set_desired_state_spec (Control.init "back" 5000 2000) State.moveUp).2
      (by decide)⟩

/-- C5: From Idle, a desired MoveUp (resp. MoveDown) makes the next
`process` transition there and append exactly the one raising (resp.
lowering) notification; a desired Idle changes nothing and appends
nothing. -/
theorem idle_process_spec (c : Control) (ns : List String) (now : Int)
    (hs : c.state = State.idle) :
    (c.desired_state = State.moveUp →
      c.process ns now =
        some ({ c with state := State.moveUp, state_start_time := some now },
          ns ++ ["Raising the " ++ c.name ++ "."])) ∧
    (c.desired_state = State.moveDown →
      c.process ns now =
        some ({ c with state := State.moveDown, state_start_time := some now },
          ns ++ ["Lowering the " ++ c.name ++ "."])) ∧
    (c.desired_state = State.idle → c.process ns now = some (c, ns)) := by
  refine ⟨fun h => ?_, fun h => ?_, fun h => ?_⟩ <;>
    simp [Control.process, hs, Control.process_idle_state, h, Control.set_state]

/-- Witness for C5: a freshly constructed control asked to move up. -/
theorem idle_process_spec_witness :
    ((Control.init "back" 5000 2000).set_desired_state State.moveUp).process
        [] 7 =
      some ({ (Control.init "back" 5000 2000).set_desired_state State.moveUp
                with state := State.moveUp, state_start_time := some 7 },
        ["Raising the back."]) :=
  (idle_process_spec
      ((Control.init "back" 5000 2000).set_desired_state State.moveUp) [] 7
      (by decide)).1 (by decide)

/-- C7: From Idle with a desired state that is none of Idle, MoveUp,
MoveDown, `process` keeps the state, appends nothing, and defensively
resets `desired_state` to Idle. -/
theorem idle_defensive_fallback (c : Control) (ns : List String) (now : Int)
    (hs : c.state = State.idle)
    (h1 : c.desired_state ≠ State.idle)
    (h2 : c.desired_state ≠ State.moveUp)
    (h3 : c.desired_state ≠ State.moveDown) :
    c.process ns now = some ({ c with desired_state := State.idle }, ns) := by
  simp [Control.process, hs, Control.process_idle_state, h1, h2, h3]

/-- Witness for C7: an idle control whose desired state is CoolDown. -/
theorem idle_defensive_fallback_witness :
    Control.process
        { name := "legs", state := State.idle,
          desired_state := State.coolDown, state_start_time := none,
          moving_duration_ms := 5000, cool_down_duration_ms := 2000 } [] 3 =
      some ({ name := "legs", state := State.idle,
              desired_state := State.idle, state_start_time := none,
              moving_duration_ms := 5000, cool_down_duration_ms := 2000 },
        []) :=
  idle_defensive_fallback
    { name := "legs", state := State.idle, desired_state := State.coolDown,
      state_start_time := none, moving_duration_ms := 5000,
      cool_down_duration_ms := 2000 } [] 3 (by decide) (by decide) (by decide)
    (by decide)

/-- C1: In a moving state whose desired state equals the current state,
`process` is a no-op while the elapsed time is strictly below the moving
duration; once the elapsed time reaches it, `process` moves to CoolDown,
appends exactly the stopped notification, and forces the desired state to
Idle. -/
theorem moving_timeout_spec (c : Control) (start : Int) (ns : List String)
    (now : Int)
    (hmv : c.state = State.moveUp ∨ c.state = State.moveDown)
    (hd : c.desired_state = c.state)
    (hst : c.state_start_time = some start) :
    (now - start < c.moving_duration_ms → c.process ns now = some (c, ns)) ∧
    (c.moving_duration_ms ≤ now - start →
      c.process ns now =
        some ({ c with
                  state := State.coolDown
                  desired_state := State.idle
                  state_start_time := some now },
          ns ++ [c.name ++ " stopped."])) := by
  constructor <;> intro h <;> rcases hmv with hs | hs <;>
    simp [Control.process, hs, Control.process_moving_states, hd,
      Control.moving_timeout, hst, Control.set_state, h, not_lt.mpr h]

/-- Witness for C1: a control that has been moving up for 5001 ms of its
5000 ms budget stops into cool down. -/
theorem moving_timeout_spec_witness :
    Control.process
        { name := "legs", state := State.moveUp,
          desired_state := State.moveUp, state_start_time := some 0,
          moving_duration_ms := 5000, cool_down_duration_ms := 2000 } [] 5001 =
      some ({ name := "legs", state := State.coolDown,
              desired_state := State.idle, state_start_time := some 5001,
              moving_duration_ms := 5000, cool_down_duration_ms := 2000 },
        ["legs stopped."]) :=
  (moving_timeout_spec
      { name := "legs", state := State.moveUp,
        desired_state := State.moveUp, state_start_time := some 0,
        moving_duration_ms := 5000, cool_down_duration_ms := 2000 } 0 [] 5001
      (Or.inl (by decide)) (by decide) (by decide)).2 (by decide)

/-- C3: In a moving state whose desired state differs from the current
one, `process` honors the request immediately, however little time has
elapsed: the other moving state is entered directly with its raising or
lowering notification, and a desired Idle goes to CoolDown (never straight
to Idle) with the stopped notification. -/
theorem moving_override_spec (c : Control) (ns : List String) (now : Int)
    (hmv : c.state = State.moveUp ∨ c.state = State.moveDown)
    (hd : c.desired_state ≠ c.state) :
    (c.desired_state = State.moveUp →
      c.process ns now =
        some ({ c with state := State.moveUp, state_start_time := some now },
          ns ++ ["Raising the " ++ c.name ++ "."])) ∧
    (c.desired_state = State.moveDown →
      c.process ns now =
        some ({ c with state := State.moveDown, state_start_time := some now },
          ns ++ ["Lowering the " ++ c.name ++ "."])) ∧
    (c.desired_state = State.idle →
      c.process ns now =
        some ({ c with state := State.coolDown, state_start_time := some now },
          ns ++ [c.name ++ " stopped."])) := by
  refine ⟨fun h => ?_, fun h => ?_, fun h => ?_⟩ <;> rcases hmv with hs | hs <;>
    first
    | exact absurd (h.trans hs.symm) hd
    | simp [Control.process, hs, Control.process_moving_states, hd, h,
        Control.set_state]

/-- Witness for C3: a control moving up for only 1 ms reverses to moving
down immediately. -/
theorem moving_override_spec_witness :
    Control.process
        { name := "back", state := State.moveUp,
          desired_state := State.moveDown, state_start_time := some 0,
          moving_duration_ms := 5000, cool_down_duration_ms := 2000 } [] 1 =
      some ({ name := "back", state := State.moveDown,
              desired_state := State.moveDown, state_start_time := some 1,
              moving_duration_ms := 5000, cool_down_duration_ms := 2000 },
        ["Lowering the back."]) :=
  ((moving_override_spec
      { name := "back", state := State.moveUp,
        desired_state := State.moveDown, state_start_time := some 0,
        moving_duration_ms := 5000, cool_down_duration_ms := 2000 } [] 1
      (Or.inl (by decide)) (by decide)).2.1) (by decide)

/-- C2: In CoolDown, no sequence of `set_desired_state` calls can shorten
or skip the lockout: the control is still in CoolDown afterwards,
`process` is a no-op while the elapsed time is strictly below the
cool-down duration, and once it reaches it `process` goes to Idle with no
notification and the desired state forced to Idle. -/
theorem cool_down_locked_spec (c : Control) (start : Int)
    (requests : List State) (ns : List String) (now : Int)
    (hs : c.state = State.coolDown)
    (hst : c.state_start_time = some start) :
    (requests.foldl Control.set_desired_state c).state = State.coolDown ∧
    (now - start < c.cool_down_duration_ms →
      (requests.foldl Control.set_desired_state c).process ns now =
        some (requests.foldl Control.set_desired_state c, ns)) ∧
    (c.cool_down_duration_ms ≤ now - start →
      (requests.foldl Control.set_desired_state c).process ns now =
        some ({ requests.foldl Control.set_desired_state c with
                  state := State.idle
                  desired_state := State.idle
                  state_start_time := some now }, ns)) := by
  obtain ⟨h1, h2, h3⟩ := foldl_set_desired_state_fields requests c
  refine ⟨h1.trans hs, fun h => ?_, fun h => ?_⟩ <;>
    simp [Control.process, h1.trans hs, Control.process_cool_down_state,
      h2.trans hst, h3, Control.set_state, h, not_lt.mpr h]

/-- Witness for C2: a cooling-down control bombarded with requests
(including CoolDown itself) stays in CoolDown at 1999 ms of its 2000 ms
lockout. -/
theorem cool_down_locked_spec_witness :
    ([State.moveUp, State.coolDown, State.moveDown].foldl
          Control.set_desired_state
          { name := "legs", state := State.coolDown,
            desired_state := State.idle, state_start_time := some 0,
            moving_duration_ms := 5000, cool_down_duration_ms := 2000 }).state =
        State.coolDown ∧
    ([State.moveUp, State.coolDown, State.moveDown].foldl
          Control.set_desired_state
          { name := "legs", state := State.coolDown,
            desired_state := State.idle, state_start_time := some 0,
            moving_duration_ms := 5000, cool_down_duration_ms := 2000 }).process
        [] 1999 =
      some ([State.moveUp, State.coolDown, State.moveDown].foldl
          Control.set_desired_state
          { name := "legs", state := State.coolDown,
            desired_state := State.idle, state_start_time := some 0,
            moving_duration_ms := 5000, cool_down_duration_ms := 2000 }, []) :=
  ⟨(cool_down_locked_spec
      { name := "legs", state := State.coolDown, desired_state := State.idle,
        state_start_time := some 0, moving_duration_ms := 5000,
        cool_down_duration_ms := 2000 } 0
      [State.moveUp, State.coolDown, State.moveDown] [] 1999 (by decide)
      (by decide)).1,
    (cool_down_locked_spec
      { name := "legs", state := State.coolDown, desired_state := State.idle,
        state_start_time := some 0, moving_duration_ms := 5000,
        cool_down_duration_ms := 2000 } 0
      [State.moveUp, State.coolDown, State.moveDown] [] 1999 (by decide)
      (by decide)).2.1 (by decide)⟩

/-- Any successful `process` call leaves `state_start_time` set unless the
resulting state is idle (every non-idle result either came from a
`set_state`, which stamps it, or kept a control whose stamp a timeout
branch had just read). -/
theorem process_some_start_time (c : Control) (ns : List String) (now : Int)
    (c2 : Control) (ns2 : List String) (h : c.process ns now = some (c2, ns2)) :
    c2.state = State.idle ∨ c2.state_start_time.isSome := by
  obtain ⟨name, state, desired, start, mv, cd⟩ := c
  cases state <;> cases desired <;> cases start <;>
    simp [Control.process, Control.process_idle_state,
      Control.process_moving_states, Control.process_cool_down_state,
      Control.moving_timeout, Control.set_state] at h <;>
    (try split at h) <;>
    (try simp_all) <;>
    (obtain ⟨h1, h2⟩ := h) <;>
    simp [← h1]

/-- A successful `process` call that changes the state stamps
`state_start_time` with the timer reading, and one that keeps the state
keeps the stamp. -/
theorem process_stamps (c : Control) (ns : List String) (now : Int)
    (c2 : Control) (ns2 : List String) (h : c.process ns now = some (c2, ns2)) :
    (c2.state ≠ c.state → c2.state_start_time = some now) ∧
    (c2.state = c.state → c2.state_start_time = c.state_start_time) := by
  obtain ⟨name, state, desired, start, mv, cd⟩ := c
  cases state <;> cases desired <;> cases start <;>
    simp [Control.process, Control.process_idle_state,
      Control.process_moving_states, Control.process_cool_down_state,
      Control.moving_timeout, Control.set_state] at h <;>
    (try split at h) <;>
    (try simp_all) <;>
    (obtain ⟨h1, h2⟩ := h) <;>
    simp [← h1]

/-- A single public API step preserves the property that
`state_start_time` is set away from idle. -/
theorem step_preserves_start {c c2 : Control} (hs : Step c c2)
    (ih : c.state ≠ State.idle → c.state_start_time.isSome) :
    c2.state ≠ State.idle → c2.state_start_time.isSome := by
  cases hs with
  | set_desired s =>
    obtain ⟨h1, h2, _⟩ := set_desired_state_fields c s
    rw [h1, h2]; exact ih
  | process ns now c2 ns2 h =>
    intro hne
    rcases process_some_start_time c ns now c2 ns2 h with h2 | h2
    · exact absurd h2 hne
    · exact h2

/-- Reachability invariant: away from idle, `state_start_time` is set. -/
theorem reachable_start_isSome {c : Control} (hr : Reachable c) :
    c.state ≠ State.idle → c.state_start_time.isSome := by
  induction hr with
  | init name mv cd => intro h; exact absurd rfl h
  | step hr hs ih => exact step_preserves_start hs ih

/-- Helper: `process` succeeds whenever the state is idle or `state_start_time`
is set. -/
theorem process_isSome_of_start (c : Control) (ns : List String) (now : Int)
    (h : c.state = State.idle ∨ c.state_start_time.isSome) :
    (c.process ns now).isSome := by
  obtain ⟨name, state, desired, start, mv, cd⟩ := c
  cases state <;> cases desired <;> cases start <;>
    simp [Control.process, Control.process_idle_state,
      Control.process_moving_states, Control.process_cool_down_state,
      Control.moving_timeout, Control.set_state] at h ⊢ <;>
    (try split) <;> simp_all

/-- Helper: `movingLegs` is reachable: construct the `legs` control, request
MoveUp, and tick once at time 0. -/
theorem movingLegs_reachable : Reachable movingLegs :=
  Reachable.step
    (Reachable.step (Reachable.init "legs" 5000 2000)
      (Step.set_desired (Control.init "legs" 5000 2000) State.moveUp))
    (Step.process ((Control.init "legs" 5000 2000).set_desired_state
        State.moveUp)
      [] 0 movingLegs ["Raising the legs."] (by decide))

/-- C8: On every reachable control, any state change made by `process`
stamps `state_start_time` with the current timer reading, a `process`
call that keeps the state keeps the stamp, and whenever the state is not
Idle (the machine has left its just-constructed value) the stamp is
defined. -/
theorem state_start_time_stamped (c : Control) (hr : Reachable c) :
    (c.state ≠ State.idle → c.state_start_time.isSome) ∧
    (∀ ns now c2 ns2, c.process ns now = some (c2, ns2) →
      (c2.state ≠ c.state → c2.state_start_time = some now) ∧
      (c2.state = c.state → c2.state_start_time = c.state_start_time)) :=
  ⟨reachable_start_isSome hr,
    fun ns now c2 ns2 h => process_stamps c ns now c2 ns2 h⟩

/-- Witness for C8: the reachable mid-motion control has its stamp set,
and timing out into CoolDown at 5001 ms re-stamps it with 5001. -/
theorem state_start_time_stamped_witness :
    movingLegs.state_start_time.isSome ∧
    ({ name := "legs", state := State.coolDown, desired_state := State.idle,
       state_start_time := some 5001, moving_duration_ms := 5000,
       cool_down_duration_ms := 2000 } : Control).state_start_time =
      some 5001 :=
  ⟨(state_start_time_stamped movingLegs movingLegs_reachable).1 (by decide),
    ((state_start_time_stamped movingLegs movingLegs_reachable).2 [] 5001
      { name := "legs", state := State.coolDown,
        desired_state := State.idle, state_start_time := some 5001,
        moving_duration_ms := 5000, cool_down_duration_ms := 2000 }
      ["legs stopped."] (by decide)).1 (by decide)⟩

/-- C9: `process` never fails on any control reachable through the public
API: every read of `state_start_time` it performs happens in a state where
the stamp has been set, and (because `State` is a closed inductive type)
the dispatch covers every state, so the Python `match` arm for an
unhandled state has no reachable counterpart. -/
theorem process_never_fails (c : Control) (hr : Reachable c)
    (ns : List String) (now : Int) : (c.process ns now).isSome := by
  rcases eq_or_ne c.state State.idle with h | h
  · exact process_isSome_of_start c ns now (Or.inl h)
  · exact process_isSome_of_start c ns now
      (Or.inr (reachable_start_isSome hr h))

/-- Witness for C9: ticking the reachable mid-motion control succeeds. -/
theorem process_never_fails_witness :
    (movingLegs.process [] 17).isSome :=
  process_never_fails movingLegs movingLegs_reachable [] 17

/-- C10: One `process` call appends at most one notification, and appends
to any caller-supplied sink exactly the strings it would produce from an
empty sink — it never reads, removes, or modifies the entries already
there. -/
theorem process_sink_append_only (c : Control) (now : Int) (c0 : Control)
    (app : List String) (h : c.process [] now = some (c0, app)) :
    app.length ≤ 1 ∧ ∀ ns, c.process ns now = some (c0, ns ++ app) := by
  obtain ⟨name, state, desired, start, mv, cd⟩ := c
  cases state <;> cases desired <;> cases start <;>
    simp [Control.process, Control.process_idle_state,
      Control.process_moving_states, Control.process_cool_down_state,
      Control.moving_timeout, Control.set_state] at h ⊢ <;>
    (try split at h) <;>
    (try simp_all) <;>
    (obtain ⟨h1, h2⟩ := h) <;>
    subst h1 <;> subst h2 <;>
    simp_all [Control.process, Control.process_idle_state,
      Control.process_moving_states, Control.process_cool_down_state,
      Control.moving_timeout, Control.set_state]

/-- Witness for C10: starting a raise appends one notification after the
existing sink entry, which is preserved. -/
theorem process_sink_append_only_witness :
    (["Raising the legs."] : List String).length ≤ 1 ∧
    ((Control.init "legs" 5000 2000).set_desired_state State.moveUp).process
        ["prior entry"] 0 =
      some (movingLegs, ["prior entry"] ++ ["Raising the legs."]) :=
  ⟨(process_sink_append_only
      ((Control.init "legs" 5000 2000).set_desired_state State.moveUp) 0
      movingLegs ["Raising the legs."] (by decide)).1,
    (process_sink_append_only
      ((Control.init "legs" 5000 2000).set_desired_state State.moveUp) 0
      movingLegs ["Raising the legs."] (by decide)).2 ["prior entry"]⟩

end Sandman
